import Mathlib

/-!
Verification development for the `get_loadBalancerIP` tool: a Go program
that discovers which cluster node answers ARP for a set of LoadBalancer
IP addresses.  The repository has two near-identical entry points
(`get_loadBalancerIP.go`, here the "colored" variant, and an unnamed
plain variant); both are embedded below.  Remote command execution
(ansible) is modelled as an abstract transport: a function from the
issued command to its combined output and success/failure signal.
The local filesystem state relevant to the program is the single
`k8s.inventory` artifact, modelled as an `Option String` (its content
when present).
-/

namespace GetLB

/-- Result of one remote command execution: the captured combined output
and whether the command reported failure (`err != nil` in Go). -/
structure ProbeResult where
  out : String
  failed : Bool
deriving DecidableEq, Repr

/-- An ansible command invocation, as built by `exec.Command` in the source:
inventory path, target host pattern, optional remote user, module and
module arguments. -/
structure AnsibleCmd where
  inventory : String
  target : String
  remoteUser : Option String
  module : String
  args : String
deriving DecidableEq, Repr

/-- The remote-execution transport: deterministic within one run, it maps
each issued command to its observed result. -/
def Transport := AnsibleCmd → ProbeResult

/-- Helper: `pat` occurs as a contiguous sublist of the first list. -/
def listHasSub (l pat : List Char) : Bool :=
  match l with
  | [] => pat.isEmpty
  | _ :: rest => pat.isPrefixOf l || listHasSub rest pat

/-- Go `strings.Contains(s, pat)`: `pat` occurs as a contiguous substring
of `s`. -/
def strContains (s pat : String) : Bool :=
  listHasSub s.data pat.data

/-- Go `unicode.IsSpace` restricted to the Latin-1 space characters (the ones
`strings.TrimSpace` strips from the program's inputs). -/
def goIsSpace (c : Char) : Bool :=
  c = ' ' || c = '\t' || c = '\n' || c = '\x0b' || c = '\x0c' || c = '\r' || c = '\x85' || c = '\xa0'

/-- Go `strings.TrimSpace`: drop leading and trailing whitespace. -/
def strTrim (s : String) : String :=
  ⟨((s.data.dropWhile goIsSpace).reverse.dropWhile goIsSpace).reverse⟩

/-- Split a character list on a separator character; Go `strings.Split`
semantics for a one-character separator (the empty input yields `[[]]`). -/
def splitCharList (c : Char) : List Char → List (List Char)
  | [] => [[]]
  | a :: rest =>
    let r := splitCharList c rest
    if a = c then [] :: r
    else
      match r with
      | [] => [[a]]
      | h :: t => (a :: h) :: t

/-- Go `strings.Split(s, sep)` for the one-character separators the program
uses (`"\n"` and `","`). -/
def strSplitChar (c : Char) (s : String) : List String :=
  (splitCharList c s.data).map (fun l => ⟨l⟩)

/-- Go `strings.HasPrefix(s, pat)`. -/
def strStartsWith (s pat : String) : Bool :=
  pat.data.isPrefixOf s.data

/-- The shell command string built by
`fmt.Sprintf("arping -q -I %s %s -c 1", arpInterface, ip)`. -/
def arpingArgs (arpInterface ip : String) : String :=
  "arping -q -I " ++ arpInterface ++ " " ++ ip ++ " -c 1"

/-- The probe command issued for one (node, ip) pair:
`ansible -i k8s.inventory <node> -u <user> -m shell -a "arping -q -I <iface> <ip> -c 1"`. -/
def probeCmd (node user arpInterface ip : String) : AnsibleCmd :=
  { inventory := "k8s.inventory", target := node, remoteUser := some user,
    module := "shell", args := arpingArgs arpInterface ip }

/-- Discovery command of the colored variant (`get_loadBalancerIP.go`):
`ansible -i k8s.inventory "k8s[1]" -m shell -a "ip route | awk '/7/ ...' | head -2"`. -/
def ifaceRouteCmd : AnsibleCmd :=
  { inventory := "k8s.inventory", target := "k8s[1]", remoteUser := none,
    module := "shell",
    args := "ip route | awk \x27/7/ \x7bprint $3\x7d\x27 | head -2" }

/-- Discovery command of the plain variant (`part_000`): scans `ip addr show`
output for an inet address starting with 7. -/
def ifaceAddrCmd : AnsibleCmd :=
  { inventory := "k8s.inventory", target := "k8s[1]", remoteUser := none,
    module := "shell",
    args := "ip addr show | grep -oP \x27^\\d+: \\K[^:]*\x27 | xargs -I\x7b\x7d ip addr show \x7b\x7d | grep -oP \x27(?<=inet\\s)7\\S+\x27" }

/-- `getInterfaceNameStartingWithSeven` of the colored variant: on command
error return `""`; otherwise split the trimmed combined output on newlines
and return the trimmed third line when at least three lines exist, else `""`. -/
def getInterfaceNameStartingWithSeven (t : Transport) : String :=
  let r := t ifaceRouteCmd
  if r.failed then ""
  else
    let lines := strSplitChar '\n' (strTrim r.out)
    if lines.length ≥ 3 then strTrim (lines.getD 2 "")
    else ""

/-- `getInterfaceNameStartingWithSeven` of the plain variant: on command
error return `""`; otherwise the trimmed combined output. -/
def getInterfaceNameStartingWithSevenAddr (t : Transport) : String :=
  let r := t ifaceAddrCmd
  if r.failed then "" else strTrim r.out

/-- The slice of a Kubernetes service the program reads: `Spec.Type` and the
ingress IPs under `Status.LoadBalancer.Ingress`. -/
structure Service where
  serviceType : String
  ingressIPs : List String
deriving DecidableEq, Repr

/-- `getLoadBalancerIPsStartingWithSeven`: on a service-listing error return
the empty (nil) slice; otherwise append, in service order then ingress order,
every ingress IP of a LoadBalancer-type service that starts with `"7"`. -/
def getLoadBalancerIPsStartingWithSeven (servicesResult : Option (List Service)) : List String :=
  match servicesResult with
  | none => []
  | some items =>
    items.foldl (fun acc service =>
      if service.serviceType = "LoadBalancer" then
        service.ingressIPs.foldl (fun acc2 ip =>
          if strStartsWith ip "7" then acc2 ++ [ip] else acc2) acc
      else acc) []

/-- `getSpecificLoadBalancerIPs`: trim the interactive line and split it on
commas. -/
def getSpecificLoadBalancerIPs (input : String) : List String :=
  strSplitChar ',' (strTrim input)

/-- One inventory record: `<node> ansible_user=<username>\n`. -/
def inventoryLine (node user : String) : String :=
  node ++ " ansible_user=" ++ user ++ "\n"

/-- `createInventoryFile`: `os.Create` truncates/overwrites `k8s.inventory`
(any prior content `_prior` is discarded), then the header `[k8s]\n` and one
record per node are written in order. -/
def createInventoryFile (_prior : Option String) (nodes : List String) (user : String) : Option String :=
  some (nodes.foldl (fun acc node => acc ++ inventoryLine node user) "[k8s]\n")

/-- `removeInventoryFile` acting on the filesystem state: if `os.Stat`
succeeds (the artifact exists) the file is removed (`removeOk` models whether
`os.Remove` succeeds); if the file does not exist nothing is done and `nil`
is returned.  The second component is the success signal (`err == nil`). -/
def removeInventoryFile (removeOk : Bool) (fs : Option String) : Option String × Bool :=
  match fs with
  | some c => if removeOk then (none, true) else (some c, false)
  | none => (none, true)

/-- Inner loop of `runARPCommandOnAllNodes` over the candidate IPs of one
node: issue one probe command per IP, and record the (node, ip) pair exactly
when the transport reports failure and the output contains `"FAILED"`.
Returns the issued commands and the recorded pairs, in order. -/
def probeIPs (t : Transport) (node arpInterface user : String) : List String → List AnsibleCmd × List (String × String)
  | [] => ([], [])
  | ip :: rest =>
    let cmd := probeCmd node user arpInterface ip
    let r := t cmd
    let res := probeIPs t node arpInterface user rest
    (cmd :: res.1,
     if r.failed && strContains r.out "FAILED" then (node, ip) :: res.2 else res.2)

/-- `runARPCommandOnAllNodes`: nodes in the outer loop, candidate IPs in the
inner loop, strictly sequential.  Returns the trace of issued probe commands
and the accumulated `hostingNodes` pairs, both in iteration order. -/
def runARPCommandOnAllNodes (t : Transport) (nodes : List String) (arpInterface : String) (lbIPs : List String) (user : String) : List AnsibleCmd × List (String × String) :=
  match nodes with
  | [] => ([], [])
  | node :: rest =>
    let res1 := probeIPs t node arpInterface user lbIPs
    let res2 := runARPCommandOnAllNodes t rest arpInterface lbIPs user
    (res1.1 ++ res2.1, res1.2 ++ res2.2)

/-- The rows appended to the result table: one two-column row per recorded
(node, ip) pair, in order, never deduplicated or re-sorted; an empty list
renders a zero-row table. -/
def renderedRows (hostingNodes : List (String × String)) : List (List String) :=
  hostingNodes.map (fun p => [p.1, p.2])

/-- The row-major (node, ip) pair order the orchestrator visits. -/
def pairOrder (nodes lbIPs : List String) : List (String × String) :=
  nodes.flatMap (fun node => lbIPs.map (fun ip => (node, ip)))

/-- External inputs of one run: success of the fatal setup steps, the
interactive answers, the cluster metadata results, the transport, and the
initial filesystem state of the `k8s.inventory` artifact. -/
structure Env where
  currentUserOk : Bool
  kubeconfigOk : Bool
  clientOk : Bool
  ansibleUsername : String
  nodesResult : Option (List String)
  createOk : Bool
  transport : Transport
  menuOption : String
  manualIPs : String
  servicesResult : Option (List Service)
  removeOk : Bool
  fs0 : Option String

/-- Observable outcome of one run: process exit code, whether the inventory
artifact was (successfully) created, how many times removal was invoked, the
probe commands issued, the rendered table rows, whether the result table was
rendered, and the final filesystem state. -/
structure RunOutcome where
  exitCode : Nat
  inventoryCreated : Bool
  removeCount : Nat
  probes : List AnsibleCmd
  rows : List (List String)
  rendered : Bool
  fsFinal : Option String
deriving Repr

/-- Outcome of a fatal abort (`os.Exit(1)`). -/
def abortRun (created : Bool) (fs : Option String) : RunOutcome :=
  { exitCode := 1, inventoryCreated := created, removeCount := 0,
    probes := [], rows := [], rendered := false, fsFinal := fs }

/-- Tail of both entry points once nodes, interface and candidate IPs are
known: run all probes, render the table, remove the inventory (a removal
error is only warned about), return normally (exit code 0). -/
def finishRun (t : Transport) (removeOk : Bool) (nodes : List String) (arpInterface ansibleUsername : String) (lbIPs : List String) (fs1 : Option String) : RunOutcome :=
  let res := runARPCommandOnAllNodes t nodes arpInterface lbIPs ansibleUsername
  let fs2 := (removeInventoryFile removeOk fs1).1
  { exitCode := 0, inventoryCreated := true, removeCount := 1,
    probes := res.1, rows := renderedRows res.2, rendered := true, fsFinal := fs2 }

/-- `main` of the colored variant (`get_loadBalancerIP.go`): setup checks,
username prompt, node listing, inventory creation, interface discovery,
yes/no menu, probing, and a single inventory removal at the end of the
normal path.  Note the inventory is created before the interface-discovery
and menu abort points, and those aborts do not remove it. -/
def mainRun (env : Env) : RunOutcome :=
  if !env.currentUserOk then abortRun false env.fs0
  else if !env.kubeconfigOk then abortRun false env.fs0
  else if !env.clientOk then abortRun false env.fs0
  else
    let ansibleUsername := strTrim env.ansibleUsername
    match env.nodesResult with
    | none => abortRun false env.fs0
    | some nodes =>
      if !env.createOk then abortRun false env.fs0
      else
        let fs1 := createInventoryFile env.fs0 nodes ansibleUsername
        let arpInterface := getInterfaceNameStartingWithSeven env.transport
        if arpInterface = "" then abortRun true fs1
        else
          let option := strTrim env.menuOption
          if option = "yes" then
            finishRun env.transport env.removeOk nodes arpInterface ansibleUsername
              (getLoadBalancerIPsStartingWithSeven env.servicesResult) fs1
          else if option = "no" then
            finishRun env.transport env.removeOk nodes arpInterface ansibleUsername
              (getSpecificLoadBalancerIPs env.manualIPs) fs1
          else abortRun true fs1

/-- `main` of the plain variant (`part_000`): same steps, but interface
discovery and the yes/no menu come before node listing and inventory
creation, so every abort happens with no artifact written. -/
def mainRunPlain (env : Env) : RunOutcome :=
  if !env.currentUserOk then abortRun false env.fs0
  else if !env.kubeconfigOk then abortRun false env.fs0
  else if !env.clientOk then abortRun false env.fs0
  else
    let ansibleUsername := strTrim env.ansibleUsername
    let arpInterface := getInterfaceNameStartingWithSevenAddr env.transport
    if arpInterface = "" then abortRun false env.fs0
    else
      let option := strTrim env.menuOption
      let lbIPsOpt : Option (List String) :=
        if option = "yes" then some (getLoadBalancerIPsStartingWithSeven env.servicesResult)
        else if option = "no" then some (getSpecificLoadBalancerIPs env.manualIPs)
        else none
      match lbIPsOpt with
      | none => abortRun false env.fs0
      | some lbIPs =>
        match env.nodesResult with
        | none => abortRun false env.fs0
        | some nodes =>
          if !env.createOk then abortRun false env.fs0
          else
            finishRun env.transport env.removeOk nodes arpInterface ansibleUsername lbIPs
              (createInventoryFile env.fs0 nodes ansibleUsername)

/-! Concrete run fixtures used to exhibit particular executions. -/

/-- Transport fixture: every remote command fails with empty output. -/
def tFailAll : Transport := fun _ => { out := "", failed := true }

/-- Transport fixture: interface discovery succeeds with a three-line output
whose third line names `eth7`; every probe succeeds (no marker). -/
def tDiscoveryOk : Transport := fun cmd =>
  if cmd = ifaceRouteCmd then
    { out := "node1 | CHANGED | rc=0 >>\n1.2.3.4\neth7", failed := false }
  else if cmd = ifaceAddrCmd then { out := "7.1.2.0", failed := false }
  else { out := "", failed := false }

/-- Environment fixture: every setup step succeeds, nodes `n1`, `n2`,
username `alice`, auto-discovery chosen, no services, empty filesystem. -/
def envBase : Env :=
  { currentUserOk := true, kubeconfigOk := true, clientOk := true,
    ansibleUsername := "alice", nodesResult := some ["n1", "n2"],
    createOk := true, transport := tDiscoveryOk, menuOption := "yes",
    manualIPs := "", servicesResult := some [], removeOk := true, fs0 := none }

/-- Run in which the interface-discovery command fails. -/
def envDiscoveryFail : Env := { envBase with transport := tFailAll }

/-- Run in which the menu is answered with a string that is neither
`yes` nor `no`. -/
def envInvalidMenu : Env := { envBase with menuOption := "maybe" }

/-- Run in which the cluster service-listing call fails. -/
def envServicesErr : Env := { envBase with servicesResult := none }

/-- The classification condition under which `runARPCommandOnAllNodes`
records a (node, ip) pair: the transport reports failure for its probe
command and the combined output contains `"FAILED"`. -/
def isHosting (t : Transport) (user arpInterface : String) (p : String × String) : Bool :=
  let r := t (probeCmd p.1 user arpInterface p.2)
  r.failed && strContains r.out "FAILED"

/-- Concatenation of a list of strings, in order. -/
def concatLines (ls : List String) : String :=
  ls.foldr (fun a b => a ++ b) ""

/-! Helper lemmas. -/

lemma strAppend_assoc (a b c : String) : a ++ b ++ c = a ++ (b ++ c) := by
  apply String.ext
  simp

lemma strAppend_empty (a : String) : a ++ "" = a := by
  apply String.ext
  simp

lemma foldl_append_concatLines (f : String → String) :
    ∀ (l : List String) (init : String),
      l.foldl (fun acc x => acc ++ f x) init = init ++ concatLines (l.map f)
  | [], init => (strAppend_empty init).symm
  | x :: rest, init => by
    have ih := foldl_append_concatLines f rest (init ++ f x)
    simp only [List.foldl_cons, List.map_cons] at ih ⊢
    rw [ih, strAppend_assoc]
    rfl

lemma probeIPs_fst (t : Transport) (node arpInterface user : String) :
    ∀ ips : List String,
      (probeIPs t node arpInterface user ips).1
        = ips.map (fun ip => probeCmd node user arpInterface ip)
  | [] => rfl
  | ip :: rest => by
    simp [probeIPs, probeIPs_fst t node arpInterface user rest]

lemma probeIPs_snd (t : Transport) (node arpInterface user : String) :
    ∀ ips : List String,
      (probeIPs t node arpInterface user ips).2
        = (ips.map (fun ip => (node, ip))).filter (isHosting t user arpInterface)
  | [] => rfl
  | ip :: rest => by
    simp only [probeIPs, List.map_cons, List.filter_cons,
      probeIPs_snd t node arpInterface user rest, isHosting]

lemma runARP_fst (t : Transport) (arpInterface user : String) (lbIPs : List String) :
    ∀ nodes : List String,
      (runARPCommandOnAllNodes t nodes arpInterface lbIPs user).1
        = (pairOrder nodes lbIPs).map (fun p => probeCmd p.1 user arpInterface p.2)
  | [] => rfl
  | node :: rest => by
    simp [runARPCommandOnAllNodes, pairOrder, probeIPs_fst,
      runARP_fst t arpInterface user lbIPs rest, List.map_map, Function.comp]

lemma runARP_snd (t : Transport) (arpInterface user : String) (lbIPs : List String) :
    ∀ nodes : List String,
      (runARPCommandOnAllNodes t nodes arpInterface lbIPs user).2
        = (pairOrder nodes lbIPs).filter (isHosting t user arpInterface)
  | [] => rfl
  | node :: rest => by
    simp [runARPCommandOnAllNodes, pairOrder, probeIPs_snd,
      runARP_snd t arpInterface user lbIPs rest, List.filter_append]

lemma pairOrder_length (lbIPs : List String) :
    ∀ nodes : List String,
      (pairOrder nodes lbIPs).length = nodes.length * lbIPs.length
  | [] => by simp [pairOrder]
  | node :: rest => by
    have ih := pairOrder_length lbIPs rest
    simp only [pairOrder, List.flatMap_cons, List.length_append, List.length_map] at ih ⊢
    rw [ih, List.length_cons, Nat.succ_mul]
    omega

lemma runARP_nil_ips (t : Transport) (arpInterface user : String) :
    ∀ nodes : List String,
      runARPCommandOnAllNodes t nodes arpInterface [] user = ([], [])
  | [] => rfl
  | node :: rest => by
    simp [runARPCommandOnAllNodes, probeIPs, runARP_nil_ips t arpInterface user rest]

lemma foldl_filter7 :
    ∀ (l acc : List String),
      l.foldl (fun a x => if strStartsWith x "7" then a ++ [x] else a) acc
        = acc ++ l.filter (fun x => strStartsWith x "7")
  | [], acc => by simp
  | x :: rest, acc => by
    simp only [List.foldl_cons, List.filter_cons]
    by_cases h : strStartsWith x "7"
    · simp [h, foldl_filter7 rest (acc ++ [x])]
    · simp [h, foldl_filter7 rest acc]

/-- The ingress IPs of LoadBalancer-type services, in first-seen order. -/
def lbIngressIPs (items : List Service) : List String :=
  items.flatMap (fun s => if s.serviceType = "LoadBalancer" then s.ingressIPs else [])

lemma services_foldl (items : List Service) :
    ∀ acc : List String,
      items.foldl (fun acc service =>
        if service.serviceType = "LoadBalancer" then
          service.ingressIPs.foldl (fun acc2 ip =>
            if strStartsWith ip "7" then acc2 ++ [ip] else acc2) acc
        else acc) acc
      = acc ++ (lbIngressIPs items).filter (fun ip => strStartsWith ip "7") := by
  induction items with
  | nil => intro acc; simp [lbIngressIPs]
  | cons s rest ih =>
    intro acc
    simp only [List.foldl_cons]
    by_cases h : s.serviceType = "LoadBalancer"
    · rw [if_pos h, foldl_filter7, ih]
      simp [lbIngressIPs, List.flatMap_cons, h, List.filter_append, List.append_assoc]
    · rw [if_neg h, ih]
      simp [lbIngressIPs, List.flatMap_cons, h]

/-- Transport fixture for the result-ordering example: probes of
`7.1.2.3` on `n1` and `n2` fail with the `FAILED` marker, the probe of
`7.5.5.5` on `n1` fails for an unrelated transport reason, and every
other probe succeeds. -/
def tHostingExample : Transport := fun cmd =>
  if cmd = probeCmd "n1" "alice" "eth7" "7.1.2.3" then
    { out := "n1 | FAILED | rc=1 >>", failed := true }
  else if cmd = probeCmd "n1" "alice" "eth7" "7.5.5.5" then
    { out := "n1 | UNREACHABLE!", failed := true }
  else if cmd = probeCmd "n2" "alice" "eth7" "7.1.2.3" then
    { out := "n2 | FAILED | rc=1 >>", failed := true }
  else { out := "ok", failed := false }

/-! The claims. -/

/-- Claim C1: a (node, candidateIP) pair is recorded in the result set
exactly when its probe's transport reports failure and the captured output
contains the literal `"FAILED"`; any other outcome (including a transport
error without the marker) records nothing, and the orchestrator still
issues the probe command for every remaining pair instead of aborting. -/
theorem claim_C1_hosting_classification (t : Transport) (nodes : List String)
    (arpInterface : String) (lbIPs : List String) (user : String) :
    (runARPCommandOnAllNodes t nodes arpInterface lbIPs user).2
      = (pairOrder nodes lbIPs).filter (isHosting t user arpInterface)
    ∧ (runARPCommandOnAllNodes t nodes arpInterface lbIPs user).1
      = (pairOrder nodes lbIPs).map (fun p => probeCmd p.1 user arpInterface p.2) :=
  ⟨runARP_snd t arpInterface user lbIPs nodes, runARP_fst t arpInterface user lbIPs nodes⟩

/-- Claim C2: the orchestrator issues exactly `|nodes| * |lbIPs|` probe
commands, one per (node, ip) pair in row-major order (nodes outer, IPs
inner), and each command targets the node as the given user with the
shell invocation `arping -q -I <iface> <ip> -c 1` (single-packet count). -/
theorem claim_C2_probe_trace (t : Transport) (nodes : List String)
    (arpInterface : String) (lbIPs : List String) (user : String) :
    (runARPCommandOnAllNodes t nodes arpInterface lbIPs user).1
      = (pairOrder nodes lbIPs).map (fun p => probeCmd p.1 user arpInterface p.2)
    ∧ (runARPCommandOnAllNodes t nodes arpInterface lbIPs user).1.length
      = nodes.length * lbIPs.length
    ∧ ∀ node ip : String,
        probeCmd node user arpInterface ip
          = { inventory := "k8s.inventory", target := node,
              remoteUser := some user, module := "shell",
              args := "arping -q -I " ++ arpInterface ++ " " ++ ip ++ " -c 1" } := by
  refine ⟨runARP_fst t arpInterface user lbIPs nodes, ?_, fun node ip => rfl⟩
  rw [runARP_fst t arpInterface user lbIPs nodes, List.length_map, pairOrder_length]

/-- Claim C5: a successful inventory creation, whatever the prior artifact
content, yields exactly the header line `[k8s]` followed by one line
`<node> ansible_user=<username>` per node in supplied order; in particular
for nodes `n1`, `n2` and username `alice` the content is exactly
`[k8s]\nn1 ansible_user=alice\nn2 ansible_user=alice\n`. -/
theorem claim_C5_inventory_content (prior : Option String) (nodes : List String)
    (user : String) :
    createInventoryFile prior nodes user
      = some ("[k8s]\n" ++ concatLines (nodes.map (fun node => inventoryLine node user)))
    ∧ createInventoryFile prior ["n1", "n2"] "alice"
      = some "[k8s]\nn1 ansible_user=alice\nn2 ansible_user=alice\n" := by
  constructor
  · unfold createInventoryFile
    rw [foldl_append_concatLines]
  · rfl

/-- Claim C7: the auto-discovered candidate set is exactly the ingress IPs
of LoadBalancer-type services whose address starts with `"7"`, in
first-seen order; in particular external IPs
`["7.1.2.3", "8.9.9.9", "7.5.5.5"]` filter to `["7.1.2.3", "7.5.5.5"]`. -/
theorem claim_C7_candidate_filter (items : List Service) :
    getLoadBalancerIPsStartingWithSeven (some items)
      = (lbIngressIPs items).filter (fun ip => strStartsWith ip "7")
    ∧ getLoadBalancerIPsStartingWithSeven
        (some [{ serviceType := "LoadBalancer",
                 ingressIPs := ["7.1.2.3", "8.9.9.9", "7.5.5.5"] }])
      = ["7.1.2.3", "7.5.5.5"] := by
  constructor
  · simpa using services_foldl items []
  · decide

/-- Claim C8: the rendered result rows are exactly the recorded pairs in
probe iteration order, never deduplicated or re-sorted; for the example
outcomes where (n1, 7.1.2.3) and (n2, 7.1.2.3) carry the marker and
(n1, 7.5.5.5) fails without it, the rows are exactly
`[[n1, 7.1.2.3], [n2, 7.1.2.3]]`, and an empty result set renders a
zero-row table. -/
theorem claim_C8_rendered_rows (t : Transport) (nodes : List String)
    (arpInterface : String) (lbIPs : List String) (user : String) :
    renderedRows (runARPCommandOnAllNodes t nodes arpInterface lbIPs user).2
      = ((pairOrder nodes lbIPs).filter (isHosting t user arpInterface)).map
          (fun p => [p.1, p.2])
    ∧ renderedRows (runARPCommandOnAllNodes tHostingExample ["n1", "n2"] "eth7"
          ["7.1.2.3", "7.5.5.5"] "alice").2
      = [["n1", "7.1.2.3"], ["n2", "7.1.2.3"]]
    ∧ renderedRows [] = [] := by
  refine ⟨?_, by decide, rfl⟩
  unfold renderedRows
  rw [runARP_snd t arpInterface user lbIPs nodes]

/-- Claim C9: creating the inventory and immediately removing it leaves no
artifact, and removal is idempotent: removing when no artifact exists is a
no-op that reports success. -/
theorem claim_C9_remove_idempotent (prior : Option String) (nodes : List String)
    (user : String) (removeOk : Bool) :
    (removeInventoryFile true (createInventoryFile prior nodes user)).1 = none
    ∧ removeInventoryFile removeOk none = (none, true) :=
  ⟨rfl, rfl⟩

/-- Claim C3 counterexample: a concrete run of the colored entry point in
which the inventory artifact is created, the run then aborts (interface
discovery fails, exit code 1), and removal is never invoked — the artifact
is left on disk.  This refutes removal on every exit path. -/
theorem claim_C3_counterexample :
    (mainRun envDiscoveryFail).inventoryCreated = true
    ∧ (mainRun envDiscoveryFail).removeCount = 0
    ∧ (mainRun envDiscoveryFail).exitCode = 1
    ∧ (mainRun envDiscoveryFail).fsFinal
        = some "[k8s]\nn1 ansible_user=alice\nn2 ansible_user=alice\n" := by
  decide

/-- Claim C3 as amended: inventory removal is invoked exactly once at the
end of the normal completion path, and exactly zero times on every abort
(non-zero exit) path, even when the artifact was already created. -/
theorem claim_C3_remove_once_on_success (env : Env) :
    ((mainRun env).exitCode = 0 → (mainRun env).removeCount = 1)
    ∧ ((mainRun env).exitCode ≠ 0 → (mainRun env).removeCount = 0) := by
  unfold mainRun
  by_cases h1 : env.currentUserOk = true
  · by_cases h2 : env.kubeconfigOk = true
    · by_cases h3 : env.clientOk = true
      · rcases hN : env.nodesResult with _ | nodes
        · simp [h1, h2, h3, hN, abortRun]
        · by_cases h4 : env.createOk = true
          · by_cases h5 : getInterfaceNameStartingWithSeven env.transport = ""
            · simp [h1, h2, h3, hN, h4, h5, abortRun]
            · by_cases h6 : strTrim env.menuOption = "yes"
              · simp [h1, h2, h3, hN, h4, h5, h6, finishRun]
              · by_cases h7 : strTrim env.menuOption = "no"
                · simp [h1, h2, h3, hN, h4, h5, h6, h7, finishRun]
                · simp [h1, h2, h3, hN, h4, h5, h6, h7, abortRun]
          · simp [h1, h2, h3, hN, h4, abortRun]
      · simp [h1, h2, h3, abortRun]
    · simp [h1, h2, abortRun]
  · simp [h1, abortRun]

/-- Witness for the amended claim C3 at a concrete normally-completing run. -/
theorem claim_C3_remove_once_on_success_witness :
    (mainRun envBase).removeCount = 1 :=
  (claim_C3_remove_once_on_success envBase).1 (by decide)

/-- Claim C4 counterexample: a concrete run of the colored entry point with
menu answer `maybe` (neither `yes` nor `no`) aborts with exit code 1, but
the inventory artifact has already been created and written — refuting that
no `k8s.inventory` file is ever written on such a run. -/
theorem claim_C4_counterexample :
    strTrim envInvalidMenu.menuOption ≠ "yes"
    ∧ strTrim envInvalidMenu.menuOption ≠ "no"
    ∧ (mainRun envInvalidMenu).exitCode = 1
    ∧ (mainRun envInvalidMenu).inventoryCreated = true
    ∧ (mainRun envInvalidMenu).fsFinal
        = some "[k8s]\nn1 ansible_user=alice\nn2 ansible_user=alice\n" := by
  decide

/-- Claim C4 as amended: with an invalid menu answer both entry points abort
with a non-zero exit and never remove anything; in the plain variant the
abort happens before any inventory artifact is created (the filesystem is
untouched), while in the colored variant the artifact may already have been
written, since creation precedes the menu prompt. -/
theorem claim_C4_invalid_menu_aborts (env : Env)
    (hm1 : strTrim env.menuOption ≠ "yes") (hm2 : strTrim env.menuOption ≠ "no") :
    (mainRunPlain env).exitCode = 1
    ∧ (mainRunPlain env).inventoryCreated = false
    ∧ (mainRunPlain env).fsFinal = env.fs0
    ∧ (mainRun env).exitCode = 1
    ∧ (mainRun env).removeCount = 0 := by
  have hPlain : (mainRunPlain env).exitCode = 1
      ∧ (mainRunPlain env).inventoryCreated = false
      ∧ (mainRunPlain env).fsFinal = env.fs0 := by
    unfold mainRunPlain
    by_cases h1 : env.currentUserOk = true
    · by_cases h2 : env.kubeconfigOk = true
      · by_cases h3 : env.clientOk = true
        · by_cases h5 : getInterfaceNameStartingWithSevenAddr env.transport = ""
          · simp [h1, h2, h3, h5, abortRun]
          · simp [h1, h2, h3, h5, h1, abortRun, if_neg hm1, if_neg hm2]
        · simp [h1, h2, h3, abortRun]
      · simp [h1, h2, abortRun]
    · simp [h1, abortRun]
  have hColor : (mainRun env).exitCode = 1 ∧ (mainRun env).removeCount = 0 := by
    unfold mainRun
    by_cases h1 : env.currentUserOk = true
    · by_cases h2 : env.kubeconfigOk = true
      · by_cases h3 : env.clientOk = true
        · rcases hN : env.nodesResult with _ | nodes
          · simp [h1, h2, h3, hN, abortRun]
          · by_cases h4 : env.createOk = true
            · by_cases h5 : getInterfaceNameStartingWithSeven env.transport = ""
              · simp [h1, h2, h3, hN, h4, h5, abortRun]
              · simp [h1, h2, h3, hN, h4, h5, if_neg hm1, if_neg hm2, abortRun]
            · simp [h1, h2, h3, hN, h4, abortRun]
        · simp [h1, h2, h3, abortRun]
      · simp [h1, h2, abortRun]
    · simp [h1, abortRun]
  exact ⟨hPlain.1, hPlain.2.1, hPlain.2.2, hColor.1, hColor.2⟩

/-- Witness for the amended claim C4 at a concrete invalid-menu run. -/
theorem claim_C4_invalid_menu_aborts_witness :
    (mainRunPlain envInvalidMenu).inventoryCreated = false
    ∧ (mainRun envInvalidMenu).removeCount = 0 := by
  have h := claim_C4_invalid_menu_aborts envInvalidMenu (by decide) (by decide)
  exact ⟨h.2.1, h.2.2.2.2⟩

/-- Claim C6: when the discovery command errors, or its output yields no
usable line (fewer than three lines for the route-parsing variant, blank
output for the address-parsing variant), the resolver returns the empty
string as an explicit failure signal, and the run then aborts with exit
code 1 having issued no probe commands. -/
theorem claim_C6_iface_failure_aborts (env : Env)
    (h : (env.transport ifaceRouteCmd).failed = true
      ∨ (strSplitChar '\n' (strTrim (env.transport ifaceRouteCmd).out)).length < 3) :
    getInterfaceNameStartingWithSeven env.transport = ""
    ∧ (env.currentUserOk = true → env.kubeconfigOk = true → env.clientOk = true →
        env.createOk = true → ∀ nodes : List String, env.nodesResult = some nodes →
        (mainRun env).exitCode = 1 ∧ (mainRun env).probes = []
          ∧ (mainRun env).rendered = false)
    ∧ (∀ t : Transport,
        (t ifaceAddrCmd).failed = true ∨ strTrim (t ifaceAddrCmd).out = "" →
        getInterfaceNameStartingWithSevenAddr t = "") := by
  have hIface : getInterfaceNameStartingWithSeven env.transport = "" := by
    unfold getInterfaceNameStartingWithSeven
    rcases h with h | h
    · simp [h]
    · by_cases hf : (env.transport ifaceRouteCmd).failed = true
      · simp [hf]
      · simp only [Bool.not_eq_true] at hf
        simp only [hf, Bool.false_eq_true, if_false]
        rw [if_neg]
        omega
  refine ⟨hIface, ?_, ?_⟩
  · intro hu hk hc hcr nodes hn
    unfold mainRun
    simp [hu, hk, hc, hcr, hn, hIface, abortRun]
  · intro t ht
    unfold getInterfaceNameStartingWithSevenAddr
    rcases ht with ht | ht
    · simp [ht]
    · by_cases hf : (t ifaceAddrCmd).failed = true
      · simp [hf]
      · simp only [Bool.not_eq_true] at hf
        simp [hf, ht]

/-- Witness for claim C6 at a concrete run whose discovery command fails. -/
theorem claim_C6_iface_failure_aborts_witness :
    getInterfaceNameStartingWithSeven envDiscoveryFail.transport = ""
    ∧ (mainRun envDiscoveryFail).exitCode = 1
    ∧ (mainRun envDiscoveryFail).probes = [] := by
  have h := claim_C6_iface_failure_aborts envDiscoveryFail (Or.inl (by decide))
  exact ⟨h.1, (h.2.1 rfl rfl rfl rfl ["n1", "n2"] rfl).1,
    (h.2.1 rfl rfl rfl rfl ["n1", "n2"] rfl).2.1⟩

/-- Claim C10: when the service-listing call fails on the auto-discovery
path, the candidate function returns the empty list, the run proceeds and
completes normally: zero probes are issued, a zero-row table is rendered,
the inventory is removed, and the exit code is 0. -/
theorem claim_C10_services_error_completes (env : Env)
    (hu : env.currentUserOk = true) (hk : env.kubeconfigOk = true)
    (hc : env.clientOk = true) (hcr : env.createOk = true)
    (nodes : List String) (hn : env.nodesResult = some nodes)
    (hm : strTrim env.menuOption = "yes")
    (hs : env.servicesResult = none)
    (hi : getInterfaceNameStartingWithSeven env.transport ≠ "") :
    getLoadBalancerIPsStartingWithSeven env.servicesResult = []
    ∧ (mainRun env).exitCode = 0
    ∧ (mainRun env).probes = []
    ∧ (mainRun env).rows = []
    ∧ (mainRun env).rendered = true
    ∧ (mainRun env).removeCount = 1 := by
  have hlb : getLoadBalancerIPsStartingWithSeven none = [] := rfl
  refine ⟨by rw [hs]; exact hlb, ?_⟩
  unfold mainRun
  simp [hu, hk, hc, hcr, hn, hi, hm, hs, hlb, finishRun, runARP_nil_ips, renderedRows]

/-- Witness for claim C10 at a concrete run with a failing service listing. -/
theorem claim_C10_services_error_completes_witness :
    (mainRun envServicesErr).exitCode = 0
    ∧ (mainRun envServicesErr).probes = []
    ∧ (mainRun envServicesErr).rows = [] := by
  have h := claim_C10_services_error_completes envServicesErr rfl rfl rfl rfl
    ["n1", "n2"] rfl (by decide) rfl (by decide)
  exact ⟨h.2.1, h.2.2.1, h.2.2.2.1⟩

end GetLB
